import Mathlib

/-!
# Verification of the metadata source manager and the TVDB source

Shallow embedding of `src/metadata_manager.py` (class `MetadataSourceManager`)
and `src/metadata_sources/tvdb.py` (class `TvdbMetadataSource`).

Conventions of the embedding:
* Python exceptions become values of `PyExn`; a Python call that may raise is a
  `PyResult α`.  `asyncio.gather(..., return_exceptions=True)` is embedded by
  keeping each task outcome as a `PyResult` value instead of propagating it.
* A Python `dict` keyed by strings becomes an association list with
  `lookupAssoc` playing the role of `dict.get` (keys are unique in the dicts
  the code builds, so first-match lookup agrees with dict lookup).
* A Python `set[str]` becomes `Finset String`; Python string truthiness
  (`if alias`) becomes `alias ≠ ""`.
* A provider instance is a record of the observable outcomes of its methods;
  the outbound HTTP exchange of the TVDB client is embedded as an explicit
  upstream-outcome datatype given to the function.
-/

/-- Python exception values relevant to the embedded code. -/
inductive PyExn where
  | httpException (statusCode : Nat) (detail : String)
  | notImplementedError (msg : String)
  | typeError (msg : String)
  | valueError (msg : String)
  | keyError (key : String)
  | httpStatusError (statusCode : Nat)
  | otherError (msg : String)
deriving DecidableEq, Repr

/-- Outcome of a Python call: a return value or a raised exception. -/
inductive PyResult (α : Type) where
  | ok (a : α)
  | exn (e : PyExn)
deriving DecidableEq, Repr

/-- `dict.get` on an association list (keys unique in all dicts the code builds). -/
def lookupAssoc {α : Type} : List (String × α) → String → Option α
  | [], _ => none
  | (k0, v) :: rest, k => if k0 = k then some v else lookupAssoc rest k

/-- Modelled from the spec: `models.MetadataDetailsResponse` (module `models` is
not under `src/`); section 3 gives the normalized record shape: id,
provider-specific id, title, imageUrl, free-text details, optional crosswalk id. -/
structure MetadataDetailsResponse where
  id : String
  tvdbId : Option String
  title : Option String
  imageUrl : Option String
  details : Option String
  imdbId : Option String
deriving DecidableEq, Repr

/-- One persisted source-settings row (`metadata_manager.py`, settings dicts with
keys `providerName`, `isAuxSearchEnabled`, `displayOrder`, `useProxy`). -/
structure SourceSetting where
  providerName : String
  isAuxSearchEnabled : Bool
  displayOrder : Int
  useProxy : Bool
deriving DecidableEq, Repr

/-- A loaded provider instance, given by the observable outcomes of its contract
methods.  `executeActionParams` is the list of keyword-bindable parameter names
its `execute_action` declares (after `self`), and `executeActionBody` the result
its body produces for an action name, used to embed Python call binding. -/
structure Provider where
  searchAliasesResult : String → PyResult (Finset String)
  searchResult : String → PyResult (List MetadataDetailsResponse)
  getDetailsResult : String → PyResult (Option MetadataDetailsResponse)
  checkConnectivityResult : PyResult String
  closeResult : PyResult Unit
  executeActionParams : List String
  executeActionBody : String → PyResult Unit

/-- The manager state used by the embedded operations: `self.sources` (loaded
instances by provider name), `self.source_settings` (in-memory settings cache,
keyed by provider name), and the database settings rows that
`crud.get_enabled_aux_metadata_sources` filters. -/
structure Manager where
  sources : List (String × Provider)
  sourceSettings : List (String × SourceSetting)
  dbSettings : List SourceSetting

/-- Modelled from the spec: `crud.get_enabled_aux_metadata_sources` (module
`crud` is not under `src/`); per section 6 it returns the settings rows where
`isAuxSearchEnabled` holds. -/
def getEnabledAuxMetadataSources (db : List SourceSetting) : List SourceSetting :=
  db.filter (fun s => s.isAuxSearchEnabled)

/-- Result of the alias fan-out: the merged alias set and the trace of provider
names whose `search_aliases` coroutine was actually created and awaited. -/
structure FanOutResult where
  result : Finset String
  invoked : List String
deriving DecidableEq

/-- `MetadataSourceManager.search_aliases_from_enabled_sources`
(`metadata_manager.py` lines 111-136): query enabled settings rows, skip rows
whose provider is not loaded, gather the remaining `search_aliases` calls with
`return_exceptions=True`, union together the outcomes that are sets, discard
exception outcomes, and finally strip falsy (empty) aliases. -/
def searchAliasesFromEnabledSources (mgr : Manager) (keyword : String) : FanOutResult :=
  let enabled := getEnabledAuxMetadataSources mgr.dbSettings
  let tasks : List (String × PyResult (Finset String)) :=
    enabled.filterMap (fun s =>
      match lookupAssoc mgr.sources s.providerName with
      | some inst => some (s.providerName, inst.searchAliasesResult keyword)
      | none => none)
  if tasks = [] then ⟨∅, []⟩
  else
    let allAliases := tasks.foldl (fun acc t =>
      match t.2 with
      | .ok s => acc ∪ s
      | .exn _ => acc) ∅
    ⟨allAliases.filter (fun a => a ≠ ""), tasks.map (fun t => t.1)⟩

/-- One output row of `get_sources_with_status`. -/
structure StatusRow where
  providerName : String
  isAuxSearchEnabled : Bool
  displayOrder : Int
  status : String
  useProxy : Bool
deriving DecidableEq, Repr

/-- The loop body of `get_sources_with_status` (lines 150-164): build the row
for one settings-cache entry, with status text defaulting to "检查失败" when
the provider never reported a string (not in the connectivity map because it
is not loaded, or present with an exception outcome). -/
def statusRowFor (statusMap : List (String × PyResult String))
    (p : String × SourceSetting) : StatusRow :=
  let statusText :=
    match lookupAssoc statusMap p.1 with
    | some (.ok s) => s
    | some (.exn _) => "检查失败"
    | none => "检查失败"
  { providerName := p.1
    isAuxSearchEnabled := p.2.isAuxSearchEnabled
    displayOrder := p.2.displayOrder
    status := statusText
    useProxy := p.2.useProxy }

/-- `MetadataSourceManager.get_sources_with_status` (`metadata_manager.py` lines
138-166): gather `check_connectivity` over the loaded providers into a
name-to-outcome map, then emit one row per entry of the settings cache, and
sort ascending by `displayOrder` (Python `sorted`, embedded as the stable
`mergeSort`). -/
def getSourcesWithStatus (mgr : Manager) : List StatusRow :=
  let statusMap : List (String × PyResult String) :=
    mgr.sources.map (fun p => (p.1, p.2.checkConnectivityResult))
  let fullStatusList := mgr.sourceSettings.map (statusRowFor statusMap)
  fullStatusList.mergeSort (fun a b => a.displayOrder ≤ b.displayOrder)

/-- Python call binding for a call that passes the extra keyword arguments
`kwargs` to a method whose keyword-bindable parameters are `params`: a keyword
that matches no parameter raises `TypeError` before the body runs. -/
def pyCallWithKwargs {α : Type} (params kwargs : List String) (body : PyResult α) :
    PyResult α :=
  if kwargs.all (fun k => params.contains k) then body
  else .exn (.typeError "got an unexpected keyword argument")

/-- `MetadataSourceManager.search` (lines 168-172): dispatch to the loaded
instance, or raise HTTP 404.  The second component is the trace of provider
instances actually invoked. -/
def managerSearch (mgr : Manager) (provider keyword : String) :
    PyResult (List MetadataDetailsResponse) × List String :=
  match lookupAssoc mgr.sources provider with
  | some inst => (inst.searchResult keyword, [provider])
  | none => (.exn (.httpException 404 ("未找到元数据源: " ++ provider)), [])

/-- `MetadataSourceManager.get_details` (lines 174-178): dispatch or HTTP 404. -/
def managerGetDetails (mgr : Manager) (provider itemId : String) :
    PyResult (Option MetadataDetailsResponse) × List String :=
  match lookupAssoc mgr.sources provider with
  | some inst => (inst.getDetailsResult itemId, [provider])
  | none => (.exn (.httpException 404 ("未找到元数据源: " ++ provider)), [])

/-- `MetadataSourceManager.execute_action` (lines 180-184): dispatch or HTTP
404.  The dispatch passes the keyword argument `request=request` (line 183), so
the call to the instance method is bound through `pyCallWithKwargs` with the
extra keyword `request`. -/
def managerExecuteAction (mgr : Manager) (provider actionName : String) :
    PyResult Unit × List String :=
  match lookupAssoc mgr.sources provider with
  | some inst =>
      (pyCallWithKwargs inst.executeActionParams ["request"]
        (inst.executeActionBody actionName), [provider])
  | none => (.exn (.httpException 404 ("未找到元数据源: " ++ provider)), [])

/-- The static provider-name to configuration-keys table of
`MetadataSourceManager.getProviderConfig` (lines 194-200). -/
def config_keys_map : List (String × List String) :=
  [("tmdb", ["tmdbApiKey", "tmdbApiBaseUrl", "tmdbImageBaseUrl"]),
   ("bangumi", ["bangumiClientId", "bangumiClientSecret"]),
   ("douban", ["doubanCookie"]),
   ("tvdb", ["tvdbApiKey"]),
   ("imdb", [])]

/-- The configuration shape `getProviderConfig` returns: either a key-to-value
map, or the single-value wrapper used for `douban` and `tvdb`. -/
inductive ProviderConfig where
  | map (entries : List (String × String))
  | single (value : String)
deriving DecidableEq, Repr

/-- `MetadataSourceManager.getProviderConfig` (lines 186-213): 404 when the
provider is not loaded; otherwise look the name up in the static key table —
a loaded name outside the table yields an empty configuration with a logged
warning (the `Bool` in the result records whether the warning was logged);
otherwise fetch each key from the config manager (`cfg`, with default `""`)
and return either the single-value wrapper (douban, tvdb) or the full map. -/
def getProviderConfig (mgr : Manager) (cfg : String → String) (providerName : String) :
    PyResult (ProviderConfig × Bool) :=
  match lookupAssoc mgr.sources providerName with
  | none => .exn (.httpException 404 ("未找到元数据源: " ++ providerName))
  | some _ =>
    match lookupAssoc config_keys_map providerName with
    | none => .ok (.map [], true)
    | some keysToFetch =>
      let configValues := keysToFetch.map (fun k => (k, cfg k))
      if providerName = "douban" ∨ providerName = "tvdb" then
        .ok (.single ((configValues.head?.map (fun p => p.2)).getD ""), false)
      else
        .ok (.map configValues, false)

/-- Outcome of `MetadataSourceManager.close_all` (lines 225-235): the manager
state afterwards, the trace of providers whose `close()` was invoked, and the
providers whose close raised (each such failure is logged, never re-raised:
the gather uses `return_exceptions=True`). -/
structure CloseAllResult where
  finalState : Manager
  invoked : List String
  logged : List String

/-- `MetadataSourceManager.close_all`: awaits every loaded instance's `close()`
(gathered with `return_exceptions=True`), logs each failure, and returns.  It
does not modify `self.sources`; clearing happens only at the start of
`load_and_sync_sources` (line 70). -/
def closeAll (mgr : Manager) : CloseAllResult :=
  let results := mgr.sources.map (fun p => (p.1, p.2.closeResult))
  { finalState := mgr
    invoked := results.map (fun r => r.1)
    logged := (results.filter (fun r =>
      match r.2 with
      | .exn _ => true
      | .ok _ => false)).map (fun r => r.1) }

/-- `TvdbMetadataSource._create_client` (`tvdb.py` lines 15-33), embedded by its
observable outcome: it raises `ValueError` exactly when the configured
`tvdbApiKey` is falsy (empty); the proxy selection only shapes the transport
and is not observable in any result. -/
def tvdbCreateClient (apiKey : String) : PyResult Unit :=
  if apiKey = "" then .exn (.valueError "TVDB API Key not configured.")
  else .ok ()

/-- One element of the `data` array of the TVDB `/search` response, with the
fields `TvdbMetadataSource.search` reads (`.get` fields are `Option`;
`item['tvdb_id']` raises `KeyError` when absent). -/
structure TvdbSearchItem where
  itemType : Option String
  tvdb_id : Option String
  name : Option String
  image_url : Option String
  year : Option String
deriving DecidableEq, Repr

/-- Outcome of the TVDB `/search` HTTP exchange as seen by the `try` body:
a parsed `data` array; an error status (raised by `raise_for_status` as
`HTTPStatusError`); a 2xx response whose payload raises a `ValueError`
subclass while being parsed or validated (`json.JSONDecodeError` from
`response.json()` on a malformed body, or a pydantic `ValidationError`
while building the response model) — caught by the `except ValueError`
clause like the missing-key error; or any other exception (network
failure, timeout, ...). -/
inductive UpstreamSearch where
  | ok (data : List TvdbSearchItem)
  | httpError (statusCode : Nat)
  | badPayload (msg : String)
  | otherExn (msg : String)
deriving DecidableEq, Repr

/-- The result-building loop of `TvdbMetadataSource.search` (lines 42-52):
keep items whose `type` is `"series"`, read `item['tvdb_id']` (raising
`KeyError` when absent), and build the normalized records in order. -/
def processSearchItems : List TvdbSearchItem → PyResult (List MetadataDetailsResponse)
  | [] => .ok []
  | item :: rest =>
    if item.itemType ≠ some "series" then processSearchItems rest
    else
      match item.tvdb_id with
      | none => .exn (.keyError "tvdb_id")
      | some tid =>
        let rec0 : MetadataDetailsResponse :=
          { id := tid
            tvdbId := some tid
            title := item.name
            imageUrl := item.image_url
            details := some ("Year: " ++ item.year.getD "None")
            imdbId := none }
        match processSearchItems rest with
        | .ok rs => .ok (rec0 :: rs)
        | .exn e => .exn e

/-- The `try` body of `TvdbMetadataSource.search`: create the client, perform
the exchange, process the items.  A bad payload raises a `ValueError`
subclass (`json.JSONDecodeError`, pydantic `ValidationError`), so it is a
`.valueError` for the `except` ladder, exactly like the missing-key error. -/
def tvdbSearchBody (apiKey : String) (u : UpstreamSearch) :
    PyResult (List MetadataDetailsResponse) :=
  match tvdbCreateClient apiKey with
  | .exn e => .exn e
  | .ok _ =>
    match u with
    | .httpError s => .exn (.httpStatusError s)
    | .badPayload m => .exn (.valueError m)
    | .otherExn m => .exn (.otherError m)
    | .ok data => processSearchItems data

/-- A FastAPI `HTTPException` as surfaced to the caller. -/
structure HTTPEx where
  statusCode : Nat
  detail : String
deriving DecidableEq, Repr

/-- `TvdbMetadataSource.search` (lines 35-63): the `except` ladder maps
`ValueError` to 412 with the error text, `HTTPStatusError` to 503 with a
human-readable cause (plus an API-key hint for 401), and any other exception
to a generic 500. -/
def tvdbSearch (apiKey : String) (u : UpstreamSearch) :
    Except HTTPEx (List MetadataDetailsResponse) :=
  match tvdbSearchBody apiKey u with
  | .ok r => .ok r
  | .exn (.valueError m) => .error ⟨412, m⟩
  | .exn (.httpStatusError s) =>
      .error ⟨503,
        if s = 401 then "TVDB服务返回错误: " ++ toString s ++ "，请检查您的API Key是否正确。"
        else "TVDB服务返回错误: " ++ toString s⟩
  | .exn _ => .error ⟨500, "TVDB搜索时发生内部错误。"⟩

/-- One entry of the `remoteIds` array of a TVDB series-extended response. -/
structure RemoteId where
  sourceName : Option String
  rid : Option String
deriving DecidableEq, Repr

/-- The parsed `data` object of the TVDB `/series/{id}/extended` response, with
the fields `get_details` reads (`details['id']` raises `KeyError` when absent;
an absent or null `remoteIds` is the empty list, which Python truthiness treats
like an absent one). -/
structure TvdbDetailsData where
  id : Option String
  name : Option String
  image : Option String
  overview : Option String
  remoteIds : List RemoteId
deriving DecidableEq, Repr

/-- Outcome of the TVDB `/series/{id}/extended` HTTP exchange: 404 (handled
before `raise_for_status`), another error status, a parsed payload, or any
other exception. -/
inductive UpstreamDetails where
  | ok (data : TvdbDetailsData)
  | status404
  | httpError (statusCode : Nat)
  | otherExn (msg : String)
deriving DecidableEq, Repr

/-- The `try` body of `TvdbMetadataSource.get_details` (lines 66-81): client
creation, early `return None` on upstream 404, `raise_for_status`, then build
the record, extracting the IMDB crosswalk id from `remoteIds` when present. -/
def tvdbGetDetailsBody (apiKey : String) (u : UpstreamDetails) :
    PyResult (Option MetadataDetailsResponse) :=
  match tvdbCreateClient apiKey with
  | .exn e => .exn e
  | .ok _ =>
    match u with
    | .status404 => .ok none
    | .httpError s => .exn (.httpStatusError s)
    | .otherExn m => .exn (.otherError m)
    | .ok d =>
      match d.id with
      | none => .exn (.keyError "id")
      | some i =>
        let imdbEntry :=
          if d.remoteIds = [] then none
          else d.remoteIds.find? (fun r => r.sourceName = some "IMDB")
        let rec0 : MetadataDetailsResponse :=
          { id := i
            tvdbId := some i
            title := d.name
            imageUrl := d.image
            details := d.overview
            imdbId := imdbEntry.bind (fun r => r.rid) }
        .ok (some rec0)

/-- `TvdbMetadataSource.get_details` (lines 65-84): the blanket
`except Exception` turns every failure of the body into `None`. -/
def tvdbGetDetails (apiKey : String) (u : UpstreamDetails) :
    Option MetadataDetailsResponse :=
  match tvdbGetDetailsBody apiKey u with
  | .ok r => r
  | .exn _ => none

/-- Outcome of the TVDB connectivity-probe exchange. -/
inductive UpstreamConn where
  | status (code : Nat)
  | exn (msg : String)
deriving DecidableEq, Repr

/-- `TvdbMetadataSource.check_connectivity` (lines 89-97). -/
def tvdbCheckConnectivity (apiKey : String) (u : UpstreamConn) : String :=
  if apiKey = "" then "未配置: TVDB API Key not configured."
  else
    match u with
    | .status 200 => "连接成功"
    | .status 401 => "连接失败 (API Key无效)"
    | .status c => "连接失败 (状态码: " ++ toString c ++ ")"
    | .exn m => "连接失败: " ++ m

/-- The declared parameters of `TvdbMetadataSource.execute_action` (line 98):
`(self, action_name, payload, user)` — no `request` parameter. -/
def tvdbExecuteActionParams : List String := ["action_name", "payload", "user"]

/-- The body of `TvdbMetadataSource.execute_action` (lines 98-100): it always
raises `NotImplementedError`. -/
def tvdbExecuteActionBody : PyResult Unit :=
  .exn (.notImplementedError "源 \x27tvdb\x27 不支持任何自定义操作。")

/-- The loaded TVDB provider instance as the manager sees it, parameterized by
the configured API key and the upstream exchange outcomes of each endpoint.
`close` comes from the base class, which is not under `src/`; modelled from the
spec: `close()` releases owned resources and never fails the caller. -/
def tvdbProvider (apiKey : String) (searchUp : String → UpstreamSearch)
    (detailsUp : String → UpstreamDetails) (connUp : UpstreamConn) : Provider :=
  { searchAliasesResult := fun _ => .ok ∅
    searchResult := fun kw =>
      match tvdbSearch apiKey (searchUp kw) with
      | .ok r => .ok r
      | .error e => .exn (.httpException e.statusCode e.detail)
    getDetailsResult := fun itemId => .ok (tvdbGetDetails apiKey (detailsUp itemId))
    checkConnectivityResult := .ok (tvdbCheckConnectivity apiKey connUp)
    closeResult := .ok ()
    executeActionParams := tvdbExecuteActionParams
    executeActionBody := fun _ => tvdbExecuteActionBody }

/-- A provider instance for scenario states that only constrain the alias
search and close outcomes: the other contract methods succeed trivially. -/
def inertProvider (aliases : PyResult (Finset String)) (close : PyResult Unit) :
    Provider :=
  { searchAliasesResult := fun _ => aliases
    searchResult := fun _ => .ok []
    getDetailsResult := fun _ => .ok none
    checkConnectivityResult := .ok "连接成功"
    closeResult := close
    executeActionParams := ["action_name", "payload", "user", "request"]
    executeActionBody := fun _ => .ok () }

/-- Definition following the words of claim C1: the deduplicated set union of
the alias sets produced by the successful `search_aliases` calls among the
enabled-and-loaded providers (no further filtering).  Kept separate from the
embedding of the code so the two can be compared. -/
def specUnionOfSuccessfulAliases (mgr : Manager) (keyword : String) : Finset String :=
  (getEnabledAuxMetadataSources mgr.dbSettings).foldl (fun acc s =>
    match lookupAssoc mgr.sources s.providerName with
    | some inst =>
      match inst.searchAliasesResult keyword with
      | .ok aliasSet => acc ∪ aliasSet
      | .exn _ => acc
    | none => acc) ∅

/-- Scenario state for C1's refutation: a single enabled, loaded provider whose
`search_aliases` succeeds with the set containing only the empty string. -/
def mgrBlankAlias : Manager :=
  { sources := [("A", inertProvider (.ok {""}) (.ok ()))]
    sourceSettings := [("A", ⟨"A", true, 1, false⟩)]
    dbSettings := [⟨"A", true, 1, false⟩] }

/-- Scenario state of claim C6: settings hold A (enabled, displayOrder 1) and
B (disabled, displayOrder 0); both are loaded; A's `search_aliases("x")`
returns `{"foo", "Foo", ""}`. -/
def mgrScenarioC6 : Manager :=
  { sources := [("A", inertProvider (.ok {"foo", "Foo", ""}) (.ok ())),
                ("B", inertProvider (.ok {"bar"}) (.ok ()))]
    sourceSettings := [("A", ⟨"A", true, 1, false⟩), ("B", ⟨"B", false, 0, false⟩)]
    dbSettings := [⟨"A", true, 1, false⟩, ⟨"B", false, 0, false⟩] }

/-- Scenario state of claim C4: two loaded providers, A whose `close()` raises
and B whose `close()` succeeds. -/
def mgrScenarioC4 : Manager :=
  { sources := [("A", inertProvider (.ok ∅) (.exn (.otherError "boom"))),
                ("B", inertProvider (.ok ∅) (.ok ()))]
    sourceSettings := []
    dbSettings := [] }

/-- A manager with no loaded sources and no settings. -/
def mgrEmpty : Manager :=
  { sources := [], sourceSettings := [], dbSettings := [] }

/-- A manager whose only loaded source is the TVDB provider (with a configured
key and trivially healthy upstream), for the `execute_action` dispatch
scenario of claim C5. -/
def mgrTvdbLoaded : Manager :=
  { sources := [("tvdb",
      tvdbProvider "some-key" (fun _ => .ok []) (fun _ => .status404) (.status 200))]
    sourceSettings := [("tvdb", ⟨"tvdb", false, 99, false⟩)]
    dbSettings := [⟨"tvdb", false, 99, false⟩] }

/-- A manager for the C3 witness: the settings cache holds a loaded provider
with display order 5 and an unloaded provider with display order 2. -/
def mgrScenarioC3 : Manager :=
  { sources := [("loadedprov", inertProvider (.ok ∅) (.ok ()))]
    sourceSettings := [("loadedprov", ⟨"loadedprov", true, 5, false⟩),
                       ("ghostprov", ⟨"ghostprov", false, 2, true⟩)]
    dbSettings := [⟨"loadedprov", true, 5, false⟩, ⟨"ghostprov", false, 2, true⟩] }

/-- A manager whose only loaded source has a name outside the static
configuration-key table, for the C8 witness. -/
def mgrUnknownLoaded : Manager :=
  { sources := [("myprov", inertProvider (.ok ∅) (.ok ()))]
    sourceSettings := [("myprov", ⟨"myprov", false, 99, false⟩)]
    dbSettings := [⟨"myprov", false, 99, false⟩] }

theorem lookupAssoc_map_snd {α β : Type} (g : α → β) (l : List (String × α)) (k : String) :
    lookupAssoc (l.map (fun q => (q.1, g q.2))) k = (lookupAssoc l k).map g := by
  induction l with
  | nil => rfl
  | cons hd tl ih =>
    by_cases h : hd.1 = k
    · simp [lookupAssoc, h]
    · simp [lookupAssoc, h, ih]

theorem mem_foldl_union_ok (l : List (String × PyResult (Finset String)))
    (acc : Finset String) (a : String) :
    a ∈ l.foldl (fun acc t =>
        match t.2 with
        | .ok s => acc ∪ s
        | .exn _ => acc) acc ↔
      a ∈ acc ∨ ∃ t ∈ l, ∃ S, t.2 = .ok S ∧ a ∈ S := by
  induction l generalizing acc with
  | nil => simp
  | cons hd tl ih =>
    rw [List.foldl_cons]
    cases h : hd.2 with
    | ok s =>
      simp only [ih, Finset.mem_union, List.mem_cons]
      constructor
      · rintro ((ha | hs) | ht)
        · exact Or.inl ha
        · exact Or.inr ⟨hd, Or.inl rfl, s, h, hs⟩
        · rcases ht with ⟨t, htl, S, hok, haS⟩
          exact Or.inr ⟨t, Or.inr htl, S, hok, haS⟩
      · rintro (ha | ⟨t, (rfl | htl), S, hok, haS⟩)
        · exact Or.inl (Or.inl ha)
        · rw [h] at hok
          cases hok
          exact Or.inl (Or.inr haS)
        · exact Or.inr ⟨t, htl, S, hok, haS⟩
    | exn e =>
      simp only [ih, List.mem_cons]
      constructor
      · rintro (ha | ⟨t, htl, S, hok, haS⟩)
        · exact Or.inl ha
        · exact Or.inr ⟨t, Or.inr htl, S, hok, haS⟩
      · rintro (ha | ⟨t, (rfl | htl), S, hok, haS⟩)
        · exact Or.inl ha
        · rw [h] at hok; cases hok
        · exact Or.inr ⟨t, htl, S, hok, haS⟩

theorem mem_aliasTasks (mgr : Manager) (kw : String)
    (t : String × PyResult (Finset String)) :
    t ∈ (getEnabledAuxMetadataSources mgr.dbSettings).filterMap (fun s =>
        match lookupAssoc mgr.sources s.providerName with
        | some inst => some (s.providerName, inst.searchAliasesResult kw)
        | none => none) ↔
      ∃ s, s ∈ mgr.dbSettings ∧ s.isAuxSearchEnabled = true ∧
        ∃ inst, lookupAssoc mgr.sources s.providerName = some inst ∧
          t = (s.providerName, inst.searchAliasesResult kw) := by
  rw [List.mem_filterMap]
  constructor
  · rintro ⟨s, hs, heq⟩
    rw [getEnabledAuxMetadataSources, List.mem_filter] at hs
    cases hl : lookupAssoc mgr.sources s.providerName with
    | none => rw [hl] at heq; cases heq
    | some inst =>
      rw [hl] at heq
      exact ⟨s, hs.1, hs.2, inst, hl, (Option.some.inj heq).symm⟩
  · rintro ⟨s, hdb, hen, inst, hl, ht⟩
    refine ⟨s, ?_, ?_⟩
    · rw [getEnabledAuxMetadataSources, List.mem_filter]
      exact ⟨hdb, hen⟩
    · rw [hl, ht]

/-- C2: for every providerName not present in the loaded sources map, each of
`search`, `get_details` and `execute_action` raises the client-visible 404
`HTTPException` and invokes no provider operation (the invocation trace is
empty). -/
theorem dispatch_unknown_provider_notFound (mgr : Manager)
    (p kw itemId act : String) (h : lookupAssoc mgr.sources p = none) :
    managerSearch mgr p kw = (.exn (.httpException 404 ("未找到元数据源: " ++ p)), []) ∧
    managerGetDetails mgr p itemId = (.exn (.httpException 404 ("未找到元数据源: " ++ p)), []) ∧
    managerExecuteAction mgr p act = (.exn (.httpException 404 ("未找到元数据源: " ++ p)), []) := by
  unfold managerSearch managerGetDetails managerExecuteAction
  rw [h]
  exact ⟨rfl, rfl, rfl⟩

theorem dispatch_unknown_provider_notFound_witness :
    managerSearch mgrEmpty "nonexistent" "kw" =
      (.exn (.httpException 404 ("未找到元数据源: " ++ "nonexistent")), []) ∧
    managerGetDetails mgrEmpty "nonexistent" "item" =
      (.exn (.httpException 404 ("未找到元数据源: " ++ "nonexistent")), []) ∧
    managerExecuteAction mgrEmpty "nonexistent" "act" =
      (.exn (.httpException 404 ("未找到元数据源: " ++ "nonexistent")), []) :=
  dispatch_unknown_provider_notFound mgrEmpty "nonexistent" "kw" "item" "act" rfl

/-- C4 (counterexample): in the A-raises, B-succeeds scenario, `close_all`
leaves the loaded-provider map non-empty — the claim that the manager holds
zero loaded providers afterwards is false of `close_all` itself. -/
theorem closeAll_does_not_clear_sources :
    (closeAll mgrScenarioC4).finalState.sources.length ≠ 0 := by decide

/-- C4 (amended): in the A-raises, B-succeeds scenario, both `close()` calls
are invoked, A's failure is logged and never raised to the caller (the gather
uses `return_exceptions=True`, so `closeAll` is a total function), and the
manager state — including its loaded-provider map — is left unchanged;
clearing happens only at the start of the next `load_and_sync_sources`. -/
theorem closeAll_scenario_spec :
    (closeAll mgrScenarioC4).invoked = ["A", "B"] ∧
    (closeAll mgrScenarioC4).logged = ["A"] ∧
    (closeAll mgrScenarioC4).finalState = mgrScenarioC4 :=
  ⟨rfl, rfl, rfl⟩

/-- C5 (code bug): dispatching `execute_action` through the manager to the
loaded tvdb provider raises `TypeError` — the manager passes the keyword
argument `request` (line 183) which `TvdbMetadataSource.execute_action`
(line 98) does not declare — so the provider's explicit `NotImplementedError`
("unsupported action") in its body is never reached. -/
theorem executeAction_tvdb_typeError (actionName : String) :
    (managerExecuteAction mgrTvdbLoaded "tvdb" actionName).1 =
      .exn (.typeError "got an unexpected keyword argument") ∧
    ∀ m, (managerExecuteAction mgrTvdbLoaded "tvdb" actionName).1 ≠
      .exn (.notImplementedError m) := by
  have h0 : (managerExecuteAction mgrTvdbLoaded "tvdb" actionName).1 =
      .exn (.typeError "got an unexpected keyword argument") := rfl
  refine ⟨h0, ?_⟩
  intro m
  rw [h0]
  simp

/-- C6: in the scenario with A enabled (displayOrder 1) and B disabled
(displayOrder 0), both loaded, and A returning `{"foo", "Foo", ""}` for
keyword "x": the result is exactly `{"foo", "Foo"}` (case preserved, blank
stripped), B is never invoked, and in general a blank alias never appears in
the output set of the fan-out. -/
theorem searchAliases_scenario_spec :
    (searchAliasesFromEnabledSources mgrScenarioC6 "x").result = {"foo", "Foo"} ∧
    "B" ∉ (searchAliasesFromEnabledSources mgrScenarioC6 "x").invoked ∧
    ∀ (mgr : Manager) (kw : String),
      "" ∉ (searchAliasesFromEnabledSources mgr kw).result := by
  refine ⟨by decide, by decide, ?_⟩
  intro mgr kw
  simp only [searchAliasesFromEnabledSources]
  split
  · simp
  · simp [Finset.mem_filter]

/-- C1 (counterexample): with a single enabled, loaded provider whose
`search_aliases` succeeds with `{""}`, the fan-out result is not the set union
of the successful calls' alias sets — the blank alias is stripped. -/
theorem searchAliases_blank_not_union :
    (searchAliasesFromEnabledSources mgrBlankAlias "x").result ≠
      specUnionOfSuccessfulAliases mgrBlankAlias "x" := by decide

/-- C1 (amended): `search_aliases_from_enabled_sources` never raises (it is a
total function: the gather keeps sub-task failures as values), and an alias is
in its result exactly when it is non-blank and belongs to the alias set of a
successful `search_aliases` call of some enabled-and-loaded provider — so a
raising provider contributes nothing, and with no enabled providers (or all
calls failing) the result is empty. -/
theorem searchAliases_mem_iff (mgr : Manager) (kw a : String) :
    a ∈ (searchAliasesFromEnabledSources mgr kw).result ↔
      a ≠ "" ∧ ∃ s, s ∈ mgr.dbSettings ∧ s.isAuxSearchEnabled = true ∧
        ∃ inst, lookupAssoc mgr.sources s.providerName = some inst ∧
          ∃ S, inst.searchAliasesResult kw = .ok S ∧ a ∈ S := by
  simp only [searchAliasesFromEnabledSources]
  split
  · rename_i hnil
    simp only [Finset.not_mem_empty, false_iff]
    rintro ⟨hne, s, hdb, hen, inst, hl, S, hok, haS⟩
    have ht : (s.providerName, inst.searchAliasesResult kw) ∈
        (getEnabledAuxMetadataSources mgr.dbSettings).filterMap (fun s =>
          match lookupAssoc mgr.sources s.providerName with
          | some inst => some (s.providerName, inst.searchAliasesResult kw)
          | none => none) :=
      (mem_aliasTasks mgr kw _).mpr ⟨s, hdb, hen, inst, hl, rfl⟩
    rw [hnil] at ht
    exact List.not_mem_nil _ ht
  · rw [Finset.mem_filter, mem_foldl_union_ok]
    simp only [Finset.not_mem_empty, false_or]
    constructor
    · rintro ⟨⟨t, htasks, S, hok, haS⟩, hne⟩
      rcases (mem_aliasTasks mgr kw t).mp htasks with ⟨s, hdb, hen, inst, hl, rfl⟩
      exact ⟨hne, s, hdb, hen, inst, hl, S, hok, haS⟩
    · rintro ⟨hne, s, hdb, hen, inst, hl, S, hok, haS⟩
      refine ⟨⟨(s.providerName, inst.searchAliasesResult kw), ?_, S, hok, haS⟩, hne⟩
      exact (mem_aliasTasks mgr kw _).mpr ⟨s, hdb, hen, inst, hl, rfl⟩

/-- C8 (counterexample): for a providerName outside the static key table that
is not loaded, `getProviderConfig` raises the 404 `HTTPException` instead of
returning an empty configuration with a warning. -/
theorem getProviderConfig_unloaded_unknown_raises :
    getProviderConfig mgrEmpty (fun _ => "") "someprov" =
      .exn (.httpException 404 ("未找到元数据源: " ++ "someprov")) ∧
    getProviderConfig mgrEmpty (fun _ => "") "someprov" ≠ .ok (.map [], true) := by
  exact ⟨rfl, by decide⟩

/-- C8 (amended): for every loaded providerName not present in the static
configuration-key table, `getProviderConfig` returns an empty configuration
map together with a logged warning rather than failing; an unloaded
providerName instead raises NotFound (404). -/
theorem getProviderConfig_loaded_unknown_empty (mgr : Manager)
    (cfg : String → String) (p : String) (inst : Provider)
    (h1 : lookupAssoc mgr.sources p = some inst)
    (h2 : lookupAssoc config_keys_map p = none) :
    getProviderConfig mgr cfg p = .ok (.map [], true) := by
  unfold getProviderConfig
  rw [h1, h2]

theorem getProviderConfig_loaded_unknown_empty_witness :
    getProviderConfig mgrUnknownLoaded (fun _ => "") "myprov" = .ok (.map [], true) :=
  getProviderConfig_loaded_unknown_empty mgrUnknownLoaded (fun _ => "") "myprov"
    (inertProvider (.ok ∅) (.ok ())) rfl rfl

/-- C9: for every providerName not currently in the loaded sources map,
`getProviderConfig` raises the 404 `HTTPException` — for every configuration
store alike, so the static key table and the configuration manager are never
consulted — even for names the table enumerates. -/
theorem getProviderConfig_unloaded_notFound (mgr : Manager)
    (cfg : String → String) (p : String) (h : lookupAssoc mgr.sources p = none) :
    getProviderConfig mgr cfg p = .exn (.httpException 404 ("未找到元数据源: " ++ p)) := by
  unfold getProviderConfig
  rw [h]

theorem getProviderConfig_unloaded_notFound_witness :
    getProviderConfig mgrEmpty (fun _ => "configured-value") "tvdb" =
      .exn (.httpException 404 ("未找到元数据源: " ++ "tvdb")) :=
  getProviderConfig_unloaded_notFound mgrEmpty (fun _ => "configured-value") "tvdb" rfl

/-- C10: TVDB `get_details` never raises — it is a total function into
`Option` because the blanket `except Exception` catches everything — and
returns `None` when the upstream reports 404, when the API key is missing,
when the upstream returns any error status, on any other exception, and when
the payload lacks the required `id`; absence and failure are thus
indistinguishable to the caller. -/
theorem tvdbGetDetails_total_none_on_failure (apiKey : String) (u : UpstreamDetails) :
    (apiKey = "" → tvdbGetDetails apiKey u = none) ∧
    (u = .status404 → tvdbGetDetails apiKey u = none) ∧
    (∀ s, u = .httpError s → tvdbGetDetails apiKey u = none) ∧
    (∀ m, u = .otherExn m → tvdbGetDetails apiKey u = none) ∧
    (∀ d, u = .ok d → d.id = none → tvdbGetDetails apiKey u = none) := by
  by_cases hk : apiKey = ""
  · simp [tvdbGetDetails, tvdbGetDetailsBody, tvdbCreateClient, hk]
  · refine ⟨fun h => absurd h hk, ?_, ?_, ?_, ?_⟩
    · rintro rfl
      simp [tvdbGetDetails, tvdbGetDetailsBody, tvdbCreateClient, hk]
    · rintro s rfl
      simp [tvdbGetDetails, tvdbGetDetailsBody, tvdbCreateClient, hk]
    · rintro m rfl
      simp [tvdbGetDetails, tvdbGetDetailsBody, tvdbCreateClient, hk]
    · rintro d rfl hid
      simp [tvdbGetDetails, tvdbGetDetailsBody, tvdbCreateClient, hk, hid]

theorem tvdbGetDetails_total_none_on_failure_witness :
    tvdbGetDetails "" (.ok ⟨some "1", none, none, none, []⟩) = none ∧
    tvdbGetDetails "k" .status404 = none ∧
    tvdbGetDetails "k" (.httpError 500) = none ∧
    tvdbGetDetails "k" (.otherExn "boom") = none ∧
    tvdbGetDetails "k" (.ok ⟨none, some "t", none, none, []⟩) = none :=
  ⟨(tvdbGetDetails_total_none_on_failure "" _).1 rfl,
   (tvdbGetDetails_total_none_on_failure "k" _).2.1 rfl,
   (tvdbGetDetails_total_none_on_failure "k" _).2.2.1 500 rfl,
   (tvdbGetDetails_total_none_on_failure "k" _).2.2.2.1 "boom" rfl,
   (tvdbGetDetails_total_none_on_failure "k" _).2.2.2.2 _ rfl rfl⟩

/-- C7 (counterexample): with a configured API key, a 2xx response whose
malformed body makes `response.json()` raise `json.JSONDecodeError` — a
`ValueError` subclass caught by the `except ValueError` clause at tvdb.py
line 53 — is surfaced as a 412 precondition-failed `HTTPException` carrying
the decode message, not as the generic internal 500 the claim assigns to
every exception other than a missing key or an upstream error status. -/
theorem tvdbSearch_badPayload_not_500 :
    tvdbSearch "k" (.badPayload "Expecting value: line 1 column 1 (char 0)") =
      .error ⟨412, "Expecting value: line 1 column 1 (char 0)"⟩ ∧
    tvdbSearch "k" (.badPayload "Expecting value: line 1 column 1 (char 0)") ≠
      .error ⟨500, "TVDB搜索时发生内部错误。"⟩ := by
  have h0 : tvdbSearch "k" (.badPayload "Expecting value: line 1 column 1 (char 0)") =
      .error ⟨412, "Expecting value: line 1 column 1 (char 0)"⟩ := rfl
  refine ⟨h0, ?_⟩
  rw [h0]
  simp

/-- C7 (amended): TVDB `search` normalizes every failure into the error
taxonomy of the `except` ladder: any `ValueError` raised in the body — the
missing API key, and equally a `ValueError` subclass such as
`json.JSONDecodeError` from a malformed 2xx payload — becomes the 412
precondition-failed `HTTPException` carrying the error text; an upstream HTTP
error status becomes a 503 with a human-readable cause; any other exception
of the body becomes the generic 500 — and in every case the result is a
return value or an `HTTPException` with one of these three codes, never an
uncaught crash. -/
theorem tvdbSearch_error_taxonomy (apiKey : String) (u : UpstreamSearch) :
    (apiKey = "" → tvdbSearch apiKey u = .error ⟨412, "TVDB API Key not configured."⟩) ∧
    (∀ m, apiKey ≠ "" → u = .badPayload m →
      tvdbSearch apiKey u = .error ⟨412, m⟩) ∧
    (∀ s, apiKey ≠ "" → u = .httpError s →
      ∃ d, tvdbSearch apiKey u = .error ⟨503, d⟩) ∧
    (∀ m, apiKey ≠ "" → u = .otherExn m →
      tvdbSearch apiKey u = .error ⟨500, "TVDB搜索时发生内部错误。"⟩) ∧
    ((∃ r, tvdbSearch apiKey u = .ok r) ∨
      ∃ e, tvdbSearch apiKey u = .error e ∧
        (e.statusCode = 412 ∨ e.statusCode = 503 ∨ e.statusCode = 500)) := by
  by_cases hk : apiKey = ""
  · refine ⟨fun _ => ?_, ?_, ?_, ?_, ?_⟩
    · simp [tvdbSearch, tvdbSearchBody, tvdbCreateClient, hk]
    · intro m hne
      exact absurd hk hne
    · intro s hne
      exact absurd hk hne
    · intro m hne
      exact absurd hk hne
    · refine Or.inr ⟨⟨412, "TVDB API Key not configured."⟩, ?_, Or.inl rfl⟩
      simp [tvdbSearch, tvdbSearchBody, tvdbCreateClient, hk]
  · refine ⟨fun h => absurd h hk, ?_, ?_, ?_, ?_⟩
    · rintro m hne rfl
      simp [tvdbSearch, tvdbSearchBody, tvdbCreateClient, hk]
    · rintro s hne rfl
      refine ⟨if s = 401
        then "TVDB服务返回错误: " ++ toString s ++ "，请检查您的API Key是否正确。"
        else "TVDB服务返回错误: " ++ toString s, ?_⟩
      simp [tvdbSearch, tvdbSearchBody, tvdbCreateClient, hk]
    · rintro m hne rfl
      simp [tvdbSearch, tvdbSearchBody, tvdbCreateClient, hk]
    · cases u with
      | badPayload m =>
        refine Or.inr ⟨⟨412, m⟩, ?_, Or.inl rfl⟩
        simp [tvdbSearch, tvdbSearchBody, tvdbCreateClient, hk]
      | httpError s =>
        refine Or.inr ⟨⟨503, if s = 401
          then "TVDB服务返回错误: " ++ toString s ++ "，请检查您的API Key是否正确。"
          else "TVDB服务返回错误: " ++ toString s⟩, ?_, Or.inr (Or.inl rfl)⟩
        simp [tvdbSearch, tvdbSearchBody, tvdbCreateClient, hk]
      | otherExn m =>
        refine Or.inr ⟨⟨500, "TVDB搜索时发生内部错误。"⟩, ?_, Or.inr (Or.inr rfl)⟩
        simp [tvdbSearch, tvdbSearchBody, tvdbCreateClient, hk]
      | ok data =>
        cases hp : processSearchItems data with
        | ok rs =>
          refine Or.inl ⟨rs, ?_⟩
          simp [tvdbSearch, tvdbSearchBody, tvdbCreateClient, hk, hp]
        | exn e =>
          cases e with
          | valueError m =>
            refine Or.inr ⟨⟨412, m⟩, ?_, Or.inl rfl⟩
            simp [tvdbSearch, tvdbSearchBody, tvdbCreateClient, hk, hp]
          | httpStatusError s =>
            refine Or.inr ⟨⟨503, if s = 401
              then "TVDB服务返回错误: " ++ toString s ++ "，请检查您的API Key是否正确。"
              else "TVDB服务返回错误: " ++ toString s⟩, ?_, Or.inr (Or.inl rfl)⟩
            simp [tvdbSearch, tvdbSearchBody, tvdbCreateClient, hk, hp]
          | httpException c d =>
            refine Or.inr ⟨⟨500, "TVDB搜索时发生内部错误。"⟩, ?_, Or.inr (Or.inr rfl)⟩
            simp [tvdbSearch, tvdbSearchBody, tvdbCreateClient, hk, hp]
          | notImplementedError m =>
            refine Or.inr ⟨⟨500, "TVDB搜索时发生内部错误。"⟩, ?_, Or.inr (Or.inr rfl)⟩
            simp [tvdbSearch, tvdbSearchBody, tvdbCreateClient, hk, hp]
          | typeError m =>
            refine Or.inr ⟨⟨500, "TVDB搜索时发生内部错误。"⟩, ?_, Or.inr (Or.inr rfl)⟩
            simp [tvdbSearch, tvdbSearchBody, tvdbCreateClient, hk, hp]
          | keyError k =>
            refine Or.inr ⟨⟨500, "TVDB搜索时发生内部错误。"⟩, ?_, Or.inr (Or.inr rfl)⟩
            simp [tvdbSearch, tvdbSearchBody, tvdbCreateClient, hk, hp]
          | otherError m =>
            refine Or.inr ⟨⟨500, "TVDB搜索时发生内部错误。"⟩, ?_, Or.inr (Or.inr rfl)⟩
            simp [tvdbSearch, tvdbSearchBody, tvdbCreateClient, hk, hp]

theorem tvdbSearch_error_taxonomy_witness :
    tvdbSearch "" (.ok []) = .error ⟨412, "TVDB API Key not configured."⟩ ∧
    tvdbSearch "k" (.badPayload "Expecting value") = .error ⟨412, "Expecting value"⟩ ∧
    (∃ d, tvdbSearch "k" (.httpError 502) = .error ⟨503, d⟩) ∧
    tvdbSearch "k" (.otherExn "socket hang up") =
      .error ⟨500, "TVDB搜索时发生内部错误。"⟩ :=
  ⟨(tvdbSearch_error_taxonomy "" (.ok [])).1 rfl,
   (tvdbSearch_error_taxonomy "k" (.badPayload "Expecting value")).2.1
     "Expecting value" (by decide) rfl,
   (tvdbSearch_error_taxonomy "k" (.httpError 502)).2.2.1 502 (by decide) rfl,
   (tvdbSearch_error_taxonomy "k" (.otherExn "socket hang up")).2.2.2.1
     "socket hang up" (by decide) rfl⟩

theorem statusRowFor_unloaded (mgr : Manager) (p : String × SourceSetting)
    (h : lookupAssoc mgr.sources p.1 = none) :
    statusRowFor (mgr.sources.map (fun q => (q.1, q.2.checkConnectivityResult))) p =
      { providerName := p.1
        isAuxSearchEnabled := p.2.isAuxSearchEnabled
        displayOrder := p.2.displayOrder
        status := "检查失败"
        useProxy := p.2.useProxy } := by
  unfold statusRowFor
  rw [lookupAssoc_map_snd, h]
  rfl

/-- C3: for every manager state, `get_sources_with_status` returns a list
sorted non-decreasing by `displayOrder`, whose provider names are exactly the
keys of the settings cache (one row per entry), and a provider present in
settings but not loaded appears with the default failure status text
"检查失败" rather than being omitted. -/
theorem getSourcesWithStatus_spec (mgr : Manager) :
    List.Pairwise (fun x y : StatusRow => x.displayOrder ≤ y.displayOrder)
      (getSourcesWithStatus mgr) ∧
    ((getSourcesWithStatus mgr).map (fun r => r.providerName)).Perm
      (mgr.sourceSettings.map (fun p => p.1)) ∧
    ∀ p ∈ mgr.sourceSettings, lookupAssoc mgr.sources p.1 = none →
      ({ providerName := p.1
         isAuxSearchEnabled := p.2.isAuxSearchEnabled
         displayOrder := p.2.displayOrder
         status := "检查失败"
         useProxy := p.2.useProxy } : StatusRow) ∈ getSourcesWithStatus mgr := by
  refine ⟨?_, ?_, ?_⟩
  · have h := @List.sorted_mergeSort StatusRow
      (fun x y : StatusRow => x.displayOrder ≤ y.displayOrder)
      (fun a b c hab hbc => by
        simp only [decide_eq_true_eq] at hab hbc ⊢
        omega)
      (fun a b => by
        simp only [Bool.or_eq_true, decide_eq_true_eq]
        omega)
      (mgr.sourceSettings.map (statusRowFor
        (mgr.sources.map (fun p => (p.1, p.2.checkConnectivityResult)))))
    exact h.imp (fun hab => by exact of_decide_eq_true hab)
  · have hperm := List.mergeSort_perm
      (mgr.sourceSettings.map (statusRowFor
        (mgr.sources.map (fun p => (p.1, p.2.checkConnectivityResult)))))
      (fun x y : StatusRow => x.displayOrder ≤ y.displayOrder)
    refine (hperm.map (fun r => r.providerName)).trans ?_
    rw [List.map_map]
    exact List.Perm.refl _
  · intro p hp hnone
    simp only [getSourcesWithStatus, List.mem_mergeSort]
    exact List.mem_map.mpr ⟨p, hp, statusRowFor_unloaded mgr p hnone⟩

theorem getSourcesWithStatus_spec_witness :
    ({ providerName := "ghostprov"
       isAuxSearchEnabled := false
       displayOrder := 2
       status := "检查失败"
       useProxy := true } : StatusRow) ∈ getSourcesWithStatus mgrScenarioC3 :=
  (getSourcesWithStatus_spec mgrScenarioC3).2.2
    ("ghostprov", ⟨"ghostprov", false, 2, true⟩) (by decide) rfl
